import Mathlib

/-!
Verification development for the emailbot-backend repository.

The definitions below are a shallow embedding of the JavaScript source:
  - `src/drafter.js` (language detection, message classification, draft
    generation and regeneration against the Gemini HTTP service),
  - `src/approver.js` (approval workflow over the draft store),
  - `src/followup.js` and `src/sender.js` (follow-up sequence),
  - the Express API server (draft actions and the dedupe-guarded
    `POST /api/drafts/generate` route).

Modelling conventions:
  - JavaScript strings are Lean `String`s; a possibly-`null`/`undefined`
    string field is `Option String`, and the JS truthiness test
    (`null`, `undefined` and `""` are falsy) is `jsTruthy`.
  - The draft store (one JSON file per draft id, or one relational row
    per id) is a `List Draft`; writing a draft is an upsert by id.
  - Wall-clock timestamps (`new Date().toISOString()`) are passed in as
    explicit `String` parameters.
  - Calls to the external Gemini HTTP endpoint are modelled by passing
    the HTTP outcome (`GeminiHttp`) as a parameter; the drafter's
    post-processing of that outcome is embedded faithfully.
  - JS numeric scores use floats (`1` per word hit, `0.3` per pattern
    match); the embedding scales both by 10 (`10` and `3`) and computes
    in `Nat`, which preserves all comparisons of the idealised
    real-valued scores.
  - JS regexes (no `u` flag) are embedded as explicit scanners over
    `List Char` with JavaScript semantics: `\w` is ASCII
    `[A-Za-z0-9_]`, `\b` is a `\w`/non-`\w` boundary, global `match`
    counts non-overlapping leftmost matches, quantifiers are greedy
    with backtracking across alternatives.
-/

namespace EmailBot

/-- ASCII word character, JS regex `\w` without the `u` flag:
`[A-Za-z0-9_]`. Accented letters are NOT word characters in JS. -/
def isWordChar (c : Char) : Bool :=
  (97 ≤ c.toNat && c.toNat ≤ 122) || (65 ≤ c.toNat && c.toNat ≤ 90) ||
  (48 ≤ c.toNat && c.toNat ≤ 57) || c.toNat = 95

/-- Whitespace for JS regex `\s` (the subset relevant here: space, tab,
newline, carriage return, vertical tab, form feed, no-break space). -/
def isWsChar (c : Char) : Bool :=
  c = ' ' || c = '\t' || c = '\n' || c = '\r' ||
  c = '\x0b' || c = '\x0c' || c = ' '

/-- Lower-casing as used by `String.prototype.toLowerCase()` on the
character repertoire of this code base: ASCII, the clean accented
vowels/\u00F1, and the Latin-1 capitals U+00C3/U+00C2 that lead the
source file's double-encoded (mojibake) literals. -/
def lowerChar (c : Char) : Char :=
  if 65 ≤ c.toNat && c.toNat ≤ 90 then Char.ofNat (c.toNat + 32)
  else if c = 'Á' then 'á'
  else if c = 'É' then 'é'
  else if c = 'Í' then 'í'
  else if c = 'Ó' then 'ó'
  else if c = 'Ú' then 'ú'
  else if c = 'Ñ' then 'ñ'
  else if c = 'Ã' then 'ã'
  else if c = 'Â' then 'â'
  else c

/-- Lower-case a string character-wise (model of `toLowerCase()`). -/
def lowerStr (s : String) : List Char := s.data.map lowerChar

/-- `pat` is a prefix of `s` (character-exact). -/
def prefAt : List Char → List Char → Bool
  | [], _ => true
  | _ :: _, [] => false
  | p :: ps, c :: cs => p == c && prefAt ps cs

/-- Some suffix of `s` satisfies `p` (including the empty suffix). -/
def existsPos (p : List Char → Bool) : List Char → Bool
  | [] => p []
  | c :: cs => p (c :: cs) || existsPos p cs

/-- Model of `String.prototype.includes(pat)` on char lists. -/
def containsSeq (pat : List Char) (s : List Char) : Bool :=
  existsPos (prefAt pat) s

/-- `text.includes(w)` over a `String` pattern. -/
def strIncludes (w : String) (s : List Char) : Bool :=
  containsSeq w.data s

/-- Length of the maximal run of characters satisfying `p` at the head. -/
def runLen (p : Char → Bool) : List Char → Nat
  | [] => 0
  | c :: cs => if p c then runLen p cs + 1 else 0

/-- `\b` before a position whose first matched character is a word
character: holds iff the previous character (none at string start) is
not a word character. -/
def boundaryOkBefore : Option Char → Bool
  | none => true
  | some c => !(isWordChar c)

/-- `\b` after a just-matched character `last`: a boundary holds iff
exactly one side is a word character. End of input counts as
non-word, so at end of input the boundary holds iff `last` IS a word
character (ECMA-262 semantics). -/
def boundaryOkAfter (last : Char) (rest : List Char) : Bool :=
  match rest with
  | [] => isWordChar last
  | c :: _ => isWordChar last ≠ isWordChar c

/-- Try regex alternatives in source order; on a prefix match whose
continuation `after alt rest` fails, backtrack to the next
alternative (JS alternation semantics). Returns the total match
length. -/
def tryAlts (after : List Char → List Char → Option Nat) :
    List (List Char) → List Char → Option Nat
  | [], _ => none
  | alt :: more, s =>
    match (if prefAt alt s then
            (after alt (s.drop alt.length)).map (fun n => alt.length + n)
           else none) with
    | some len => some len
    | none => tryAlts after more s

/-- Common shape of the word-alternation patterns: a leading `\b`
(every alternative starts with a letter, so the boundary just requires
a non-word previous character), an alternative, and a
pattern-specific continuation `after`. -/
def altMatcher (after : List Char → List Char → Option Nat)
    (alts : List (List Char)) (prev : Option Char)
    (s : List Char) : Option Nat :=
  if boundaryOkBefore prev then tryAlts after alts s else none

/-- Continuation `\s+\w+` (both greedy; greediness is complete here
because nothing follows them). -/
def afterSpaceWord (_alt rest : List Char) : Option Nat :=
  let k := runLen isWsChar rest
  if k = 0 then none
  else
    let j := runLen isWordChar (rest.drop k)
    if j = 0 then none else some (k + j)

/-- Continuation `\s+`. -/
def afterSpace (_alt rest : List Char) : Option Nat :=
  let k := runLen isWsChar rest
  if k = 0 then none else some k

/-- Continuation `\b` after the alternative's last character. -/
def afterBoundary (alt rest : List Char) : Option Nat :=
  match alt.getLast? with
  | none => none
  | some last => if boundaryOkAfter last rest then some 0 else none

/-- Matcher for `/\b(alt1|alt2|...)\s+\w+/`. -/
def altSpaceWord (alts : List (List Char)) : Option Char → List Char →
    Option Nat :=
  altMatcher afterSpaceWord alts

/-- Matcher for `/\b(alt1|alt2|...)\s+/`. -/
def altSpace (alts : List (List Char)) : Option Char → List Char →
    Option Nat :=
  altMatcher afterSpace alts

/-- Matcher for `/\b(alt1|alt2|...)\b/`. -/
def altBoundary (alts : List (List Char)) : Option Char → List Char →
    Option Nat :=
  altMatcher afterBoundary alts

/-- Greatest `k` with `1 ≤ k ≤ bound` such that the literal suffix
matches right after `k` word characters, with a `\b` after it
(greedy `\w+` with downward backtracking). Returns the full match
length `k + |sfx|`. -/
def suffixFindK (sfx : List Char) (s : List Char) : Nat → Option Nat
  | 0 => none
  | k + 1 =>
    if prefAt sfx (s.drop (k + 1)) &&
       (match (s.drop (k + 1 + sfx.length)).head? with
        | none => true
        | some c => !(isWordChar c)) then
      some (k + 1 + sfx.length)
    else suffixFindK sfx s k

/-- Matcher for `/\w+sfx\b/` (e.g. `/\w+ción\b/`). The suffixes used
here all end in a word character, so the trailing `\b` requires a
non-word character (or end of input) after the suffix. -/
def suffixMatch (sfx : List Char) (_prev : Option Char)
    (s : List Char) : Option Nat :=
  suffixFindK sfx s (runLen isWordChar s)

/-- One pass of the JS global `match` scan: at each position try the
matcher; on success count it and resume after the match, otherwise
advance one character. `fuel` bounds recursion (callers pass the text
length, which suffices since every match has length at least 1). -/
def scanAux (m : Option Char → List Char → Option Nat) :
    Nat → Option Char → List Char → Nat
  | 0, _, _ => 0
  | _ + 1, _, [] => 0
  | fuel + 1, prev, c :: cs =>
    match m prev (c :: cs) with
    | some n =>
      if n = 0 then scanAux m fuel (some c) cs
      else 1 + scanAux m fuel ((c :: cs).get? (n - 1)) ((c :: cs).drop n)
    | none => scanAux m fuel (some c) cs

/-- Number of non-overlapping matches of the matcher in the text
(model of `text.match(re)?.length ?? 0` with a global regex). -/
def countMatches (m : Option Char → List Char → Option Nat)
    (s : List Char) : Nat :=
  scanAux m s.length none s

/-- Spanish marker words from `Drafter.detectLanguage`, byte-faithful
to the source file: its accented literals are double-encoded
(mojibake, e.g. informaci\u00C3\u00B3n instead of informaci\u00F3n),
so the entries containing the uppercase U+00C3 can never occur in the
lower-cased text and never score. Duplicated entries are kept; JS
counts them twice. -/
def esWords : List String :=
  ["hola", "gracias", "por favor", "consulta", "mensaje", "empresa",
   "saludos", "buenos", "buenas", "estoy", "tengo", "necesito",
   "informaci\u00C3\u00B3n", "informacion", "precio", "presupuesto",
   "costo", "cu\u00C3\u00A1nto", "cuanto", "cuando", "cu\u00C3\u00A1ndo",
   "puede", "pueden", "ser\u00C3\u00ADa", "seria", "me gustar\u00C3\u00ADa",
   "me gustaria", "quisiera", "interesado", "interesada", "interes",
   "inter\u00C3\u00A9s", "servicios", "servicio", "desarrollo",
   "dise\u00C3\u00B1o", "dise\u00C3\u00B1ar", "crear", "proyecto",
   "proyectos", "quisiera", "gustar\u00C3\u00ADa", "podr\u00C3\u00ADa",
   "han", "han sido", "fue", "eran"]

/-- English marker words from `Drafter.detectLanguage` (verbatim). -/
def enWords : List String :=
  ["hello", "hi", "hey", "thanks", "thank", "please", "inquiry", "message", "company",
   "regards", "would", "could", "can you", "how much", "price", "cost", "budget",
   "i need", "i want", "i am", "i have", "i\x27m", "information", "when", "interested",
   "service", "services", "development", "design", "create", "project", "projects",
   "would like", "could you", "have been", "was", "were", "been"]

/-- The five Spanish structural patterns of `detectLanguage`, in source
order, as matchers. The `/i` patterns are represented by the lowercase
image of the source literals; the source file's accented literals are
double-encoded, so the suffix pattern is \w+ci\u00C3\u00B3n (lower
ci\u00E3\u00B3n) and the question words are qu\u00C3\u00A9 etc.
(lower qu\u00E3\u00A9 ...), which never match clean Spanish. -/
def esPatterns : List (Option Char → List Char → Option Nat) :=
  [altSpaceWord (["el", "la", "los", "las", "un", "una", "unos", "unas"].map String.data),
   altSpace (["de", "del", "en", "es", "son", "por", "para", "con", "sin", "sobre"].map String.data),
   suffixMatch "ci\u00E3\u00B3n".data,
   suffixMatch "dad".data,
   altBoundary (["qu\u00E3\u00A9", "c\u00E3\u00B3mo", "d\u00E3\u00B3nde", "cu\u00E3\u00A1l", "qui\u00E3\u00A9n"].map String.data)]

/-- The five English structural patterns of `detectLanguage`, in source
order, as matchers. -/
def enPatterns : List (Option Char → List Char → Option Nat) :=
  [altSpaceWord (["the", "a", "an"].map String.data),
   altSpace (["of", "in", "to", "for", "with", "without", "about", "from", "on", "at"].map String.data),
   suffixMatch "tion".data,
   suffixMatch "ness".data,
   altBoundary (["what", "how", "where", "which", "who", "when", "why"].map String.data)]

/-- Number of marker words from `ws` contained in the text
(`lowerText.includes(word)` per listed word). -/
def wordHits (ws : List String) (s : List Char) : Nat :=
  (ws.filter (fun w => containsSeq w.data s)).length

/-- Total pattern-match count over a pattern list. -/
def patternHits (ps : List (Option Char → List Char → Option Nat))
    (s : List Char) : Nat :=
  (ps.map (fun m => countMatches m s)).foldr (· + ·) 0

/-- Spanish score of `detectLanguage`, scaled by 10: each word hit is
worth 10 (JS `1`), each pattern match 3 (JS `0.3`). -/
def esScore (s : List Char) : Nat :=
  10 * wordHits esWords s + 3 * patternHits esPatterns s

/-- English score of `detectLanguage`, scaled by 10. -/
def enScore (s : List Char) : Nat :=
  10 * wordHits enWords s + 3 * patternHits enPatterns s

/-- `Drafter.detectLanguage(text)`: `null`/`undefined`/`""` default to
`"en"`; otherwise compare the weighted lexical scores of the
lower-cased text, `"es"` only on a strictly greater Spanish score. -/
def detectLanguage (text : Option String) : String :=
  match text with
  | none => "en"
  | some t =>
    if t = "" then "en"
    else
      let s := lowerStr t
      if enScore s < esScore s then "es" else "en"

/-! ## Message analysis (`Drafter.analyzeDraft` and helpers) -/

/-- JS truthiness for an optional string: `null`/`undefined`/`""` are
falsy. -/
def jsTruthy : Option String → Bool
  | none => false
  | some s => s ≠ ""

/-- `a || dflt` for an optional string. -/
def jsOr (a : Option String) (dflt : String) : String :=
  match a with
  | some s => if s = "" then dflt else s
  | none => dflt

/-- `a || b` keeping optionality (`null` when both are falsy). -/
def jsOrOpt (a b : Option String) : Option String :=
  if jsTruthy a then a else if jsTruthy b then b else none

/-- Case-insensitive alternation test `/(w1|w2|...)/i.test(text)` on an
already lower-cased text with lower-cased alternatives. -/
def testAny (ws : List String) (s : List Char) : Bool :=
  ws.any (fun w => containsSeq w.data s)

/-- Input record handed to the drafter: the analyzed email data
(`{...emailData, ...leadData}` assembled by the ingestor/server, plus
the message type the drafter itself injects). Fields the JS may leave
`undefined` are `Option`s. -/
structure AnalysisInput where
  email : Option String := none
  fromEmail : Option String := none
  name : Option String := none
  company : Option String := none
  service : Option String := none
  message : Option String := none
  subject : Option String := none
  emailSubject : Option String := none
  gmailId : Option String := none
  threadId : Option String := none
  messageType : Option String := none
  deriving Repr, DecidableEq

/-- Matcher for the JS regex fragment `you have \d+ more days` at one
position: literal, one-or-more digits (greedy), literal. -/
def youHaveDaysAt (s : List Char) : Bool :=
  prefAt "you have ".data s &&
    (let rest := s.drop 9
     let d := runLen (fun c => 48 ≤ c.toNat && c.toNat ≤ 57) rest
     d ≠ 0 && prefAt " more days".data (rest.drop d))

/-- `/(you have \d+ more days|upgrade now|workspace url|sign in)/i.test(msg)`. -/
def testNonActionableMsg2 (msg : List Char) : Bool :=
  existsPos youHaveDaysAt msg ||
    testAny ["upgrade now", "workspace url", "sign in"] msg

/-- The first (non-actionable) rule of `Drafter.classifyMessageType`:
no-reply sender, billing/receipt subject, scheduling or trial/upgrade
body. -/
def nonActionableTest (msg subject fromEmail : List Char) : Bool :=
  testAny ["no-reply", "noreply", "do-not-reply"] fromEmail ||
  testAny ["receipt", "invoice", "funded", "billing", "payment", "charged",
           "usage limit", "limits have increased", "trial is ending",
           "premium features", "subscription", "renewal"] subject ||
  testAny ["calendly", "meeting scheduled", "invitee", "google meet", "zoom"] msg ||
  testNonActionableMsg2 msg

/-- Student/academic rule of `classifyMessageType`. -/
def studentTest (msg : List Char) : Bool :=
  testAny ["estudiante", "estudio", "universidad", "escuela", "tarea",
           "homework", "student"] msg

/-- Sample/demo rule of `classifyMessageType`. -/
def sampleTest (msg : List Char) : Bool :=
  testAny ["muestra", "example", "sample", "demo", "prueba"] msg

/-- Channel-switch rule of `classifyMessageType`. -/
def whatsappTest (msg : List Char) : Bool :=
  testAny ["whatsapp", "telegram", "signal"] msg

/-- Other-language rule of `classifyMessageType` (the source file's
Spanish literals are double-encoded; shown here as the lowercase image
of those mojibake literals, per the `/i` convention above). -/
def otherLanguageTest (msg : List Char) : Bool :=
  testAny ["alem\u00E3\u00A1n", "franc\u00E3\u00A9s", "espa\u00E3\u00B1ol",
           "english", "german", "french"] msg &&
    !(containsSeq "espa\u00E3\u00B1ol".data msg)

/-- `Drafter.classifyMessageType(analysis)` from `src/drafter.js`:
ordered rules, first match wins, in the exact source order
(non-actionable, student, sample/demo, channel-switch, short, vague,
other-language, default `complete`). -/
def classifyMessageType (a : AnalysisInput) : String :=
  let msg := lowerStr (jsOr a.message "")
  let subject := lowerStr (jsOr a.subject (jsOr a.emailSubject ""))
  let fromEmail := lowerStr (jsOr a.email (jsOr a.fromEmail ""))
  if nonActionableTest msg subject fromEmail then "non_actionable"
  else if studentTest msg then "student"
  else if sampleTest msg then "sample_request"
  else if whatsappTest msg then "whatsapp_request"
  else if msg.length < 50 then "short"
  else if !(jsTruthy a.company) && !(jsTruthy a.service) then "vague"
  else if otherLanguageTest msg then "other_language"
  else "complete"

/-- `Drafter.analyzeSentiment(message)`. -/
def analyzeSentiment (message : Option String) : String :=
  let msg := lowerStr (jsOr message "")
  let positive := testAny ["gracias", "excelente", "perfecto", "me gusta",
    "interesante", "incre\u00E3\u00ADble", "genial", "bueno", "mejor", "interesado",
    "encanta", "thank", "great", "excellent", "interested", "love"] msg
  let negative := testAny ["no interested", "no thank", "nothing",
    "not interested", "sorry", "unfortunately"] msg
  if positive && !negative then "positive"
  else if negative then "negative"
  else "neutral"

/-- `Drafter.detectUrgency(message)`. -/
def detectUrgency (message : Option String) : String :=
  let msg := lowerStr (jsOr message "")
  if testAny ["urgente", "emergency", "ahora", "immediately", "asap",
              "urgent", "deadline", "hoy", "para hoy"] msg then "High urgency"
  else if testAny ["esta semana", "this week", "pronto", "soon",
                   "para ma\u00E3\u00B1ana", "by tomorrow"] msg then "Medium urgency"
  else "Normal urgency"

/-- `Drafter.getRecommendedAction(analysis)`. -/
def getRecommendedAction (a : AnalysisInput) : String :=
  let msg := lowerStr (jsOr a.message "")
  if testAny ["estudiante", "estudio", "universidad", "escuela", "student",
              "school", "university"] msg then
    "Recommend: Redirect to free resources or educational materials"
  else if testAny ["presupuesto", "precio", "costo", "budget", "price"] msg then
    "Recommend: Send pricing information and package options"
  else if testAny ["demo", "muestra", "example", "sample"] msg then
    "Recommend: Schedule demo call or send case studies"
  else if !(jsTruthy a.company) || !(jsTruthy a.service) then
    "Recommend: Ask clarifying questions about company and needs"
  else if msg.length < 50 then
    "Recommend: Request more details about their requirements"
  else
    "Recommend: Send personalized proposal based on their inquiry"

/-- The analysis object stored on a draft. Fields are optional because
the several producers (`Drafter.analyzeDraft`, follow-up generation,
regeneration) populate different subsets. -/
structure DraftAnalysis where
  serviceCount : Option Nat := none
  questionCount : Option Nat := none
  budgetMentioned : Option Bool := none
  timelineMentioned : Option Bool := none
  messageType : Option String := none
  language : Option String := none
  sentiment : Option String := none
  urgency : Option String := none
  recommendedAction : Option String := none
  agentInsight : Option String := none
  regeneratedAt : Option String := none
  tone : Option String := none
  followupNumber : Option Nat := none
  deriving Repr, DecidableEq

/-- `Drafter.analyzeDraft(analysis)` from `src/drafter.js`. -/
def analyzeDraft (a : AnalysisInput) : DraftAnalysis :=
  let sentiment := analyzeSentiment a.message
  let urgency := detectUrgency a.message
  let recommendedAction := getRecommendedAction a
  let language := detectLanguage a.message
  let msg := (jsOr a.message "").data
  { serviceCount := some (if jsTruthy a.service then 1 else 0)
    questionCount := some ((msg.filter (fun c => c = '?')).length)
    budgetMentioned := some (testAny ["presupuesto", "precio", "costo",
      "price", "budget"] (lowerStr (jsOr a.message "")))
    timelineMentioned := some (testAny ["cu\u00E3\u00A1ndo", "cuando", "timeline",
      "deadline", "urgente"] (lowerStr (jsOr a.message "")))
    messageType := some (classifyMessageType a)
    language := some language
    sentiment := some sentiment
    urgency := some urgency
    recommendedAction := some recommendedAction
    agentInsight := some ("Sentiment: " ++ sentiment ++ ". " ++ urgency ++
      ". " ++ recommendedAction) }

/-! ## Data model: the Draft entity and the draft store -/

/-- The `approval` object attached to a draft. The JS object is
dynamic; each key that a given writer omits is modelled as `none`. -/
structure Approval where
  approver : Option String := none
  approvedAt : Option String := none
  marceloEdit : Option String := none
  rejectionReason : Option String := none
  editorNotes : Option String := none
  revisionNotes : Option String := none
  requestedAt : Option String := none
  deriving Repr, DecidableEq

/-- `client` block of a draft. -/
structure Client where
  email : Option String := none
  name : Option String := none
  company : Option String := none
  service : Option String := none
  deriving Repr, DecidableEq

/-- `emailData` block of a draft: the immutable reference to the
source message (`gmailId`/`threadId` are the dedupe identifiers). -/
structure EmailData where
  gmailId : Option String := none
  threadId : Option String := none
  subject : Option String := none
  originalMessage : Option String := none
  deriving Repr, DecidableEq

/-- `followups` block of a draft. `isFollowup` is absent (`false`) on
primary drafts. -/
structure Followups where
  sent1 : Option String := none
  sent2 : Option String := none
  sent3 : Option String := none
  isFollowup : Bool := false
  parentDraftId : Option String := none
  followupNumber : Option Nat := none
  deriving Repr, DecidableEq

/-- The Draft entity as persisted (one JSON file / row per id). -/
structure Draft where
  id : String
  generatedAt : String
  client : Client := {}
  emailData : EmailData := {}
  draft : Option String := none
  original : Option String := none
  analysis : Option DraftAnalysis := none
  status : String
  approval : Option Approval := none
  followups : Followups := {}
  sentAt : Option String := none
  updatedAt : Option String := none
  regenerateInstruction : Option String := none
  deriving Repr, DecidableEq

/-- The draft store: all persisted drafts. -/
abbrev Store := List Draft

/-- Point lookup by id (`loadDraft`/`getDraft`): `null` when the file
does not exist. -/
def loadDraft (s : Store) (draftId : String) : Option Draft :=
  s.find? (fun d => d.id = draftId)

/-- `saveDraft`: writing `<id>.json` overwrites the record with that id
or creates it (upsert by id). -/
def saveDraft (s : Store) (d : Draft) : Store :=
  if s.any (fun x => x.id = d.id) then
    s.map (fun x => if x.id = d.id then d else x)
  else s ++ [d]

/-! ## Draft generation (`src/drafter.js`) -/

/-- Failure outcomes of the Gemini call path. -/
inductive GenError where
  | missingApiKey
  | apiError (msg : String)
  | emptyContent
  deriving Repr, DecidableEq

/-- One candidate of a Gemini response. `finishReason` other than
`"STOP"` is only logged by the source (a warning), never raised. -/
structure GeminiCandidate where
  parts : Option (List String) := none
  finishReason : Option String := none
  deriving Repr, DecidableEq

/-- Outcome of the HTTPS request to the Gemini endpoint: either an
axios-level failure (network error, timeout, non-2xx) or a parsed
response body. -/
inductive GeminiHttp where
  | netError (msg : String)
  | response (candidate : Option GeminiCandidate)
  deriving Repr, DecidableEq

/-- Text extraction of `Drafter.callGemini`:
`candidate?.content?.parts?.map(p => p.text).join('') || parts?.[0]?.text || ''`. -/
def geminiText (candidate : Option GeminiCandidate) : String :=
  let joined :=
    match candidate with
    | none => ""
    | some c =>
      match c.parts with
      | none => ""
      | some ps => String.join ps
  if joined = "" then
    (match candidate with
     | some c =>
       match c.parts with
       | some (p :: _) => p
       | _ => ""
     | none => "")
  else joined

/-- `Drafter.callGemini(prompt, ...)` (src/drafter.js lines 166-249):
throws without an API key, rethrows axios failures, throws on empty
extracted text, otherwise returns the trimmed text. A non-`STOP`
finish reason only produces a log warning. -/
def callGemini (apiKey : Option String) (http : GeminiHttp) :
    Except GenError String :=
  if !(jsTruthy apiKey) then .error .missingApiKey
  else
    match http with
    | .netError m => .error (.apiError m)
    | .response candidate =>
      let text := geminiText candidate
      if text = "" then .error .emptyContent
      else .ok text.trim

/-- `Drafter.generateFallbackDraft(analysis, language)`: used only for
the non-actionable short-circuit (and the dead `newContent || ...`
branch of regeneration); deliberately minimal, maintained per
language. The strings are byte-faithful to the source file, whose
non-ASCII output literals are double-encoded (the em dash appears as
U+00E2 U+20AC U+201D, the inverted question mark as U+00C2 U+00BF,
and the accents as U+00C3 pairs). -/
def generateFallbackDraft (a : AnalysisInput) (language : String) : String :=
  if a.messageType = some "non_actionable" then
    (if language = "es" then
      "No action needed.\n\n(Automated notification detected \u00E2\u20AC\u201D no reply will be sent.)"
     else
      "No action needed.\n\n(Automated notification detected \u00E2\u20AC\u201D no reply will be sent.)")
  else if language = "es" then
    "Hola,\n\nGracias por tu mensaje. \u00C2\u00BFPodr\u00C3\u00ADas compartir un poco m\u00C3\u00A1s de contexto o el objetivo principal para poder ayudarte mejor?\n\nSaludos,"
  else
    "Hello,\n\nThanks for your message. Could you share a bit more context or your main goal so I can help you properly?\n\nBest regards,"

/-- `Drafter.callModelRouter(analysis)` (src/drafter.js lines 290-340):
detect the language of the original message; for `non_actionable`
messages return the static notice without calling the model; otherwise
call Gemini and propagate any failure unchanged (explicitly no
fallback draft on failure). -/
def callModelRouter (a : AnalysisInput) (apiKey : Option String)
    (http : GeminiHttp) : Except GenError String :=
  let originalMessage := jsOr a.message ""
  let detectedLang := detectLanguage (some originalMessage)
  if a.messageType = some "non_actionable" then
    .ok (generateFallbackDraft a detectedLang)
  else
    callGemini apiKey http

/-- The Draft record literal that `Drafter.generate` builds on a
successful model-router call (src/drafter.js lines 50-76). -/
def generatedDraft (a : AnalysisInput) (freshId now : String)
    (draftContent : String) : Draft :=
  { id := freshId
    generatedAt := now
    client := { email := a.email, name := a.name,
                company := a.company, service := a.service }
    emailData := { gmailId := a.gmailId, threadId := a.threadId,
                   subject := a.subject, originalMessage := a.message }
    draft := some draftContent
    analysis := some (analyzeDraft a)
    status := "pending_review"
    approval := none
    followups := { sent1 := none, sent2 := none, sent3 := none } }

/-- `Drafter.generate(analysis)` (src/drafter.js lines 37-95): compute
the draft analysis, call the model router, and only on success build
and persist the Draft record (status `pending_review`); on failure the
error is rethrown and nothing is saved. Returns the post-state of the
store together with the outcome. -/
def Drafter.generate (a : AnalysisInput) (s : Store) (freshId now : String)
    (apiKey : Option String) (http : GeminiHttp) :
    Store × Except GenError Draft :=
  match callModelRouter { a with messageType := (analyzeDraft a).messageType }
      apiKey http with
  | .error e => (s, .error e)
  | .ok draftContent =>
    let d := generatedDraft a freshId now draftContent
    (saveDraft s d, .ok d)

/-- `Drafter.regenerate(draft, instruction)` (src/drafter.js lines
380-471): re-detect the language from the stored original message and
call Gemini; on success install the new content, reset status to
`pending_review` and record the language; on failure keep the previous
content, still reset status to `pending_review` (never left in
`generating`), clear the instruction and rethrow. Returns the
post-call draft object and the outcome. -/
def Drafter.regenerate (draft : Draft) (instruction : Option String)
    (apiKey : Option String) (http : GeminiHttp) (now : String) :
    Draft × Except GenError Unit :=
  let message := jsOrOpt draft.emailData.originalMessage draft.original
  let originalMessage := jsOr message ""
  let detectedLang := detectLanguage (some originalMessage)
  let _mode := (jsOr instruction "rewrite")
  match callGemini apiKey http with
  | .ok newContent =>
    let content :=
      if newContent = "" then
        generateFallbackDraft { message := message } detectedLang
      else newContent
    let oldAnalysis := draft.analysis.getD {}
    ({ draft with
        draft := some content
        status := "pending_review"
        updatedAt := some now
        regenerateInstruction := none
        analysis := some { oldAnalysis with
          language := some detectedLang
          regeneratedAt := some now } }, .ok ())
  | .error e =>
    ({ draft with
        status := "pending_review"
        updatedAt := some now
        regenerateInstruction := none }, .error e)

/-! ## Approval workflow (`src/approver.js`) and the API draft actions -/

/-- The only error the approver operations raise: unresolved draft id
(`throw new Error('Draft not found: ...')` / HTTP 404). -/
inductive ApiError where
  | notFound
  deriving Repr, DecidableEq

/-- `Approver.approve(draftId, options)` (approver source lines 28-54):
load by id, unconditionally set status `approved`, replace the
approval object, apply the optional editor override to the content,
save. There is no check of the prior status. -/
def Approver.approve (s : Store) (draftId : String)
    (marceloEdit editMessage : Option String) (now : String) :
    Except ApiError (Store × Draft) :=
  match loadDraft s draftId with
  | none => .error .notFound
  | some d =>
    let edit := jsOrOpt marceloEdit editMessage
    let d1 := { d with
      status := "approved"
      approval := some { approver := some "Marcelo", approvedAt := some now,
                         marceloEdit := edit, rejectionReason := none } }
    let d2 := if jsTruthy edit then { d1 with draft := edit } else d1
    .ok (saveDraft s d2, d2)

/-- `Approver.reject(draftId, reason)` (approver source lines 59-77):
load by id, set status `rejected`, replace the whole approval object
with `{approver, approvedAt, rejectionReason}`, save. The reason is
stored as given — there is no validation of it. -/
def Approver.reject (s : Store) (draftId : String) (reason : String)
    (now : String) : Except ApiError (Store × Draft) :=
  match loadDraft s draftId with
  | none => .error .notFound
  | some d =>
    let d1 := { d with
      status := "rejected"
      approval := some { approver := some "Marcelo", approvedAt := some now,
                         rejectionReason := some reason } }
    .ok (saveDraft s d1, d1)

/-- `Approver.requestRevision(draftId, notes)` (approver source lines
82-100): status `needs_revision`, merge revision notes into the
existing approval object. -/
def Approver.requestRevision (s : Store) (draftId : String) (notes : String)
    (now : String) : Except ApiError (Store × Draft) :=
  match loadDraft s draftId with
  | none => .error .notFound
  | some d =>
    let d1 := { d with
      status := "needs_revision"
      approval := some { d.approval.getD {} with
        revisionNotes := some notes, requestedAt := some now } }
    .ok (saveDraft s d1, d1)

/-- The `edit` branch of `POST /api/drafts` in the API server
(server source lines 283-294): set status `needs_revision`, overwrite
the content, merge `marceloEdit`/`editorNotes` into the approval
object. -/
def editAction (s : Store) (draftId : String) (newContent : Option String)
    (editorNotes : Option String) : Except ApiError (Store × Draft) :=
  match loadDraft s draftId with
  | none => .error .notFound
  | some d =>
    let d1 := { d with
      status := "needs_revision"
      draft := newContent
      approval := some { d.approval.getD {} with
        marceloEdit := newContent
        editorNotes := some (jsOr editorNotes "Edited by Marcelo") } }
    .ok (saveDraft s d1, d1)

/-! ## Follow-ups (`src/followup.js`, `src/sender.js`) -/

/-- `FollowUp.findOriginalDraft(threadId)`: the first non-follow-up
draft of the thread. -/
def findOriginalDraft (s : Store) (threadId : String) : Option Draft :=
  s.find? (fun d => d.emailData.threadId = some threadId &&
                    !d.followups.isFollowup)

/-- Set the dynamic field `followups[\x60sent${n}\x60]`. For `n`
outside 1..3 the JS writes an extra key that no reader consults; the
model leaves the record unchanged there. -/
def setSentN (f : Followups) (n : Nat) (now : String) : Followups :=
  match n with
  | 1 => { f with sent1 := some now }
  | 2 => { f with sent2 := some now }
  | 3 => { f with sent3 := some now }
  | _ => f

/-- `FollowUp.markSentAndSync(draft, followupNumber, notionSync)`
(followup source lines 362-384): write the sent timestamp into the
`followups` block of the draft object it is handed and save that
draft. The original (parent) draft of the thread is only looked up to
mirror the state to the external CRM; the store update touches no
other record. -/
def markSentAndSync (s : Store) (draft : Draft) (followupNumber : Nat)
    (now : String) : Store × Draft :=
  let d1 := { draft with followups := setSentN draft.followups followupNumber now }
  (saveDraft s d1, d1)

/-- `analysis?.followupNumber || 1` (0 and absent are falsy). -/
def followupNumberOf (d : Draft) : Nat :=
  match d.analysis with
  | some a =>
    match a.followupNumber with
    | some k => if k = 0 then 1 else k
    | none => 1
  | none => 1

/-- `Sender.sendFollowup(draft, notionSync)` (sender source lines
95-119): send the follow-up draft, set its status to `sent` with
`sentAt`, save it, and — when Notion sync is configured — call
`markSentAndSync` on that same follow-up draft object. `now` is the
send timestamp and `now2` the mark timestamp. -/
def sendFollowup (s : Store) (draft : Draft) (now now2 : String)
    (notionConfigured : Bool) : Store × Draft :=
  let n := followupNumberOf draft
  let d1 := { draft with status := "sent", sentAt := some now }
  let s1 := saveDraft s d1
  if notionConfigured then markSentAndSync s1 d1 n now2 else (s1, d1)

/-! ## The dedupe-guarded draft-generation route
(`POST /api/drafts/generate` in the API server) -/

/-- The dedupe predicate of the route:
`(d.emailData.gmailId && d.emailData.gmailId === gmailId) ||
 (threadId && d.emailData.threadId && d.emailData.threadId === threadId)`. -/
def dedupeMatch (d : Draft) (gmailId : String) (threadId : Option String) :
    Bool :=
  (jsTruthy d.emailData.gmailId && d.emailData.gmailId = some gmailId) ||
  (jsTruthy threadId && jsTruthy d.emailData.threadId &&
    d.emailData.threadId = threadId)

/-- The fields the route extracts from the fetched Gmail message
(headers and body; the From-header parsing of name/address is
abstracted as the already-extracted `fromName`/`fromEmail`). -/
structure FetchedEmail where
  threadId : Option String := none
  subject : String := ""
  fromRaw : String := ""
  fromName : String := ""
  fromEmail : String := ""
  body : String := ""
  deriving Repr, DecidableEq

/-- The `emailData` object the route assembles and passes through
`Analyzer.run` into `Drafter.generate`. The analyzer spreads this
object unchanged and only adds derived fields
(classification/extractedData/eligibility) that the drafter does not
read. -/
def routeAnalysisInput (gmailId : String) (threadId : Option String)
    (fetched : FetchedEmail) : AnalysisInput :=
  { gmailId := some gmailId
    threadId := jsOrOpt fetched.threadId threadId
    subject := some fetched.subject
    email := some fetched.fromEmail
    name := some (jsOr (some fetched.fromName) "Unknown")
    company := none
    service := none
    message := some fetched.body }

/-- Responses of the route. -/
inductive RouteOut where
  | badRequest
  | deduped (d : Draft)
  | created (d : Draft)
  | genFailed (e : GenError)
  deriving Repr, DecidableEq

/-- `POST /api/drafts/generate` (API server): 400 without a `gmailId`;
dedupe — if any stored draft already matches the source identifiers,
return it without generating; otherwise fetch the message, analyze it
and create the draft via `Drafter.generate`. -/
def generateRoute (s : Store) (gmailId : String) (threadId : Option String)
    (fetched : FetchedEmail) (freshId now : String) (apiKey : Option String)
    (http : GeminiHttp) : Store × RouteOut :=
  if gmailId = "" then (s, .badRequest)
  else
    match s.find? (fun d => dedupeMatch d gmailId threadId) with
    | some existing => (s, .deduped existing)
    | none =>
      match Drafter.generate (routeAnalysisInput gmailId threadId fetched)
          s freshId now apiKey http with
      | (s1, .ok d) => (s1, .created d)
      | (s1, .error e) => (s1, .genFailed e)

/-- Number of non-follow-up drafts in the store carrying the source
identifier pair `(gmailId, threadId)`. -/
def countSourcePair (s : Store) (gmailId threadId : String) : Nat :=
  (s.filter (fun d => d.emailData.gmailId = some gmailId &&
     d.emailData.threadId = some threadId && !d.followups.isFollowup)).length

/-! ## Claim C3: transitions from `sent` -/

/-- A draft that has already been sent. -/
def sentDraftEx : Draft :=
  { id := "d-sent", generatedAt := "2026-01-01T00:00:00Z",
    status := "sent", sentAt := some "2026-01-02T00:00:00Z",
    approval := some { approver := some "Marcelo",
                       approvedAt := some "2026-01-01T12:00:00Z" } }

/-- C3 counterexample: approving an already-`sent` draft is NOT
rejected — `Approver.approve` succeeds and overwrites the status with
`approved`. No `InvalidTransition` outcome exists in the code. -/
theorem approve_succeeds_on_sent_draft :
    sentDraftEx.status = "sent" ∧
    (Approver.approve [sentDraftEx] "d-sent" none none
        "2026-01-03T00:00:00Z").isOk = true ∧
    ((Approver.approve [sentDraftEx] "d-sent" none none
        "2026-01-03T00:00:00Z").toOption.map (fun r => r.2.status)) =
      some "approved" := by
  decide

/-- C3 as amended: `Approver.approve` never inspects the prior status;
on any existing draft — in particular one whose status is `sent` — it
succeeds and unconditionally sets the status to `approved`. -/
theorem approve_ignores_prior_status (s : Store) (draftId : String)
    (marceloEdit editMessage : Option String) (now : String) (d : Draft)
    (h : loadDraft s draftId = some d) :
    ∃ s' d', Approver.approve s draftId marceloEdit editMessage now =
        .ok (s', d') ∧ d'.status = "approved" := by
  unfold Approver.approve
  rw [h]
  refine ⟨_, _, rfl, ?_⟩
  dsimp only
  split <;> rfl

/-- Witness for C3: the amended theorem applied to a concrete store
holding a `sent` draft. -/
theorem approve_ignores_prior_status_witness :
    ∃ s' d', Approver.approve [sentDraftEx] "d-sent" none none
        "2026-01-03T00:00:00Z" = .ok (s', d') ∧ d'.status = "approved" :=
  approve_ignores_prior_status [sentDraftEx] "d-sent" none none
    "2026-01-03T00:00:00Z" sentDraftEx (by decide)

/-! ## Claim C4: the edit action's resulting status -/

/-- A freshly generated draft awaiting review. -/
def pendingDraftEx : Draft :=
  { id := "d-pend", generatedAt := "2026-01-05T00:00:00Z",
    status := "pending_review",
    draft := some "Original generated reply" }

/-- C4 counterexample: the `edit` branch of `POST /api/drafts` sets the
status of a non-terminal (`pending_review`) draft to `needs_revision`,
not to `pending_review`. -/
theorem edit_action_result_is_needs_revision :
    pendingDraftEx.status = "pending_review" ∧
    ((editAction [pendingDraftEx] "d-pend" (some "Edited body")
        (some "tone fix")).toOption.map (fun r => r.2.status)) =
      some "needs_revision" ∧
    ((editAction [pendingDraftEx] "d-pend" (some "Edited body")
        (some "tone fix")).toOption.map (fun r => r.2.status)) ≠
      some "pending_review" := by
  decide

/-- C4 as amended: the edit action sets the status to `needs_revision`
regardless of the prior status, overwriting the content and recording
the edit and editor notes in the approval object. -/
theorem edit_action_sets_needs_revision (s : Store) (draftId : String)
    (newContent editorNotes : Option String) (d : Draft)
    (h : loadDraft s draftId = some d) :
    ∃ s' d', editAction s draftId newContent editorNotes = .ok (s', d') ∧
      d'.status = "needs_revision" ∧ d'.draft = newContent ∧
      (d'.approval.map Approval.marceloEdit) = some newContent := by
  unfold editAction
  rw [h]
  exact ⟨_, _, rfl, rfl, rfl, rfl⟩

/-- Witness for C4: the amended theorem applied to a concrete
`pending_review` draft. -/
theorem edit_action_sets_needs_revision_witness :
    ∃ s' d', editAction [pendingDraftEx] "d-pend" (some "Edited body")
        (some "tone fix") = .ok (s', d') ∧
      d'.status = "needs_revision" ∧ d'.draft = some "Edited body" ∧
      (d'.approval.map Approval.marceloEdit) = some (some "Edited body") :=
  edit_action_sets_needs_revision [pendingDraftEx] "d-pend"
    (some "Edited body") (some "tone fix") pendingDraftEx (by decide)

/-! ## Claim C5: rejection with an empty reason -/

/-- Another pending draft, for the rejection claims. -/
def pendingDraftEx2 : Draft :=
  { id := "d-rej", generatedAt := "2026-01-06T00:00:00Z",
    status := "pending_review",
    draft := some "Reply awaiting review" }

/-- C5 counterexample: `reject(draftId, "")` is NOT treated as a caller
error — it succeeds, transitions the draft to `rejected` and silently
records the empty string as the rejection reason. -/
theorem reject_accepts_empty_reason :
    (Approver.reject [pendingDraftEx2] "d-rej" "" "2026-01-07T00:00:00Z").isOk
      = true ∧
    ((Approver.reject [pendingDraftEx2] "d-rej" ""
        "2026-01-07T00:00:00Z").toOption.map
      (fun r => (r.2.status, r.2.approval.map Approval.rejectionReason))) =
      some ("rejected", some (some "")) := by
  decide

/-- C5 as amended: `reject(draftId, reason)` performs no validation of
the reason; for every reason string — the empty string included — it
transitions the draft to `rejected` and records the reason verbatim in
`approval.rejectionReason`. -/
theorem reject_records_any_reason (s : Store) (draftId reason now : String)
    (d : Draft) (h : loadDraft s draftId = some d) :
    ∃ s' d', Approver.reject s draftId reason now = .ok (s', d') ∧
      d'.status = "rejected" ∧
      (d'.approval.map Approval.rejectionReason) = some (some reason) := by
  unfold Approver.reject
  rw [h]
  exact ⟨_, _, rfl, rfl, rfl⟩

/-- Witness for C5: the amended theorem at a concrete draft with the
reason of the spec's scenario. -/
theorem reject_records_any_reason_witness :
    ∃ s' d', Approver.reject [pendingDraftEx2] "d-rej" "budget too low"
        "2026-01-07T00:00:00Z" = .ok (s', d') ∧
      d'.status = "rejected" ∧
      (d'.approval.map Approval.rejectionReason) =
        some (some "budget too low") :=
  reject_records_any_reason [pendingDraftEx2] "d-rej" "budget too low"
    "2026-01-07T00:00:00Z" pendingDraftEx2 (by decide)

/-! ## Claim C10: rejection replaces the whole approval object -/

/-- C10: a successful `reject` replaces the draft's entire approval
object with `{approver: "Marcelo", approvedAt: now, rejectionReason}`:
the rejected draft carries a non-null `approvedAt` (the rejection
time) even though it was never approved, and whatever approval
metadata existed before (editor content, notes, revision fields) is
discarded — the new object does not depend on the old one at all. -/
theorem reject_replaces_approval_object (s : Store)
    (draftId reason now : String) (d : Draft)
    (h : loadDraft s draftId = some d) :
    ∃ s' d', Approver.reject s draftId reason now = .ok (s', d') ∧
      d'.approval = some { approver := some "Marcelo",
                           approvedAt := some now,
                           marceloEdit := none,
                           rejectionReason := some reason,
                           editorNotes := none,
                           revisionNotes := none,
                           requestedAt := none } := by
  unfold Approver.reject
  rw [h]
  exact ⟨_, _, rfl, rfl⟩

/-- A draft carrying earlier approval metadata (an editor override and
notes) that a later rejection will discard. -/
def editedDraftEx : Draft :=
  { id := "d-edit", generatedAt := "2026-01-08T00:00:00Z",
    status := "needs_revision",
    draft := some "Edited reply",
    approval := some { marceloEdit := some "Edited reply",
                       editorNotes := some "shorter please" } }

/-- Witness for C10: rejecting a draft that has prior editor metadata;
the resulting approval object holds only the rejection fields. -/
theorem reject_replaces_approval_object_witness :
    ∃ s' d', Approver.reject [editedDraftEx] "d-edit" "not a fit"
        "2026-01-09T00:00:00Z" = .ok (s', d') ∧
      d'.approval = some { approver := some "Marcelo",
                           approvedAt := some "2026-01-09T00:00:00Z",
                           marceloEdit := none,
                           rejectionReason := some "not a fit",
                           editorNotes := none,
                           revisionNotes := none,
                           requestedAt := none } :=
  reject_replaces_approval_object [editedDraftEx] "d-edit" "not a fit"
    "2026-01-09T00:00:00Z" editedDraftEx (by decide)

/-! ## Claim C7: regeneration failure -/

/-- C7: if the model call during `regenerate(draft, instruction)`
fails, the error is rethrown, the draft is left in `pending_review`
(never in an intermediate `generating` state), and its previous
content, analysis and identity are preserved unchanged — no template
is substituted. -/
theorem regenerate_failure_leaves_pending_review (draft : Draft)
    (instruction apiKey : Option String) (http : GeminiHttp) (now : String)
    (e : GenError) (h : callGemini apiKey http = .error e) :
    Drafter.regenerate draft instruction apiKey http now =
      ({ draft with status := "pending_review", updatedAt := some now,
                    regenerateInstruction := none }, .error e) := by
  unfold Drafter.regenerate
  rw [h]

/-- A draft parked in the transient `generating` state by the
regenerate endpoint, with existing content. -/
def generatingDraftEx : Draft :=
  { id := "d-regen", generatedAt := "2026-01-10T00:00:00Z",
    status := "generating",
    draft := some "Previous reply content",
    emailData := { originalMessage := some "Hola, necesito un sitio web." },
    regenerateInstruction := some "shorten" }

/-- Witness for C7: a timeout during regeneration of a concrete draft
leaves it `pending_review` with its previous content intact. -/
theorem regenerate_failure_witness :
    Drafter.regenerate generatingDraftEx (some "shorten") (some "key")
        (.netError "timeout of 300000ms exceeded") "2026-01-11T00:00:00Z" =
      ({ generatingDraftEx with
          status := "pending_review",
          updatedAt := some "2026-01-11T00:00:00Z",
          regenerateInstruction := none },
       .error (.apiError "timeout of 300000ms exceeded")) :=
  regenerate_failure_leaves_pending_review generatingDraftEx (some "shorten")
    (some "key") (.netError "timeout of 300000ms exceeded")
    "2026-01-11T00:00:00Z" (.apiError "timeout of 300000ms exceeded") rfl

/-! ## Claim C2: generation failure handling -/

/-- C2 as amended: if the Gemini call fails — network error or
timeout, missing API key, or a response with empty extracted content —
then `generate(analysis)` propagates exactly that error, no Draft is
written to the store, and no fallback content is substituted. (The
non-actionable short-circuit, which never calls the model, is
excluded.) A non-`STOP` finish reason accompanied by non-empty content
is NOT a raised failure; see the counterexample. -/
theorem generate_raises_without_persisting (a : AnalysisInput) (s : Store)
    (freshId now : String) (apiKey : Option String) (http : GeminiHttp)
    (e : GenError)
    (hNA : classifyMessageType a ≠ "non_actionable")
    (h : callGemini apiKey http = .error e) :
    Drafter.generate a s freshId now apiKey http = (s, .error e) := by
  unfold Drafter.generate callModelRouter
  simp [analyzeDraft, hNA, h]

/-- A concrete actionable lead input (classified `short`). -/
def shortMsgEx : AnalysisInput :=
  { email := some "lead@example.com", message := some "please send info" }

/-- Witness for C2: a concrete lead whose message type is actionable
and a concrete Gemini timeout; the store stays empty. -/
theorem generate_raises_without_persisting_witness :
    Drafter.generate shortMsgEx [] "id-1"
      "2026-02-01T00:00:00Z" (some "api-key")
      (.netError "timeout of 300000ms exceeded") =
      ([], .error (.apiError "timeout of 300000ms exceeded")) :=
  generate_raises_without_persisting shortMsgEx
    [] "id-1" "2026-02-01T00:00:00Z" (some "api-key")
    (.netError "timeout of 300000ms exceeded")
    (.apiError "timeout of 300000ms exceeded") (by decide) rfl

/-- A Gemini response whose candidate finished with a non-`STOP`
reason but still carries non-empty text. -/
def nonStopHttpEx : GeminiHttp :=
  .response (some { parts := some ["Thanks for reaching out about the website project. Could you share your timeline and a budget range? I can then outline a concrete plan."],
                    finishReason := some "MAX_TOKENS" })

/-- C2 counterexample: a generation-service response with a non-stop
finish reason (`MAX_TOKENS`) is NOT raised to the caller — `generate`
succeeds and persists the Draft, using the (possibly truncated) text;
the source only logs a warning for it. -/
theorem generate_persists_despite_non_stop_finish :
    (match nonStopHttpEx with
     | .response (some c) => c.finishReason
     | _ => none) = some "MAX_TOKENS" ∧
    (Drafter.generate shortMsgEx [] "id-1"
      "2026-02-01T00:00:00Z" (some "api-key") nonStopHttpEx).2.isOk = true ∧
    (Drafter.generate shortMsgEx [] "id-1"
      "2026-02-01T00:00:00Z" (some "api-key") nonStopHttpEx).1.length = 1 := by
  decide

/-! ## Claim C6: where the follow-up sent timestamp is recorded -/

/-- A sent primary draft (the parent of the thread's follow-ups). -/
def parentDraftEx : Draft :=
  { id := "p-1", generatedAt := "2026-02-10T00:00:00Z",
    status := "sent", sentAt := some "2026-02-10T01:00:00Z",
    emailData := { gmailId := some "g-1", threadId := some "t-1",
                   subject := some "Inquiry" },
    draft := some "Original reply" }

/-- The first follow-up draft of that thread, approved for sending. -/
def followupDraftEx : Draft :=
  { id := "f-1", generatedAt := "2026-02-13T00:00:00Z",
    status := "approved",
    emailData := { gmailId := some "g-1", threadId := some "t-1",
                   subject := some "Seguimiento: Inquiry" },
    draft := some "Follow-up body",
    analysis := some { messageType := some "followup",
                       followupNumber := some 1 },
    followups := { isFollowup := true, parentDraftId := some "p-1",
                   followupNumber := some 1 } }

/-- C6 counterexample: sending follow-up number 1 writes
`followups.sent1` onto the follow-up draft record itself and leaves
the parent draft's `followups.sent1` null — the opposite of the
claimed parent-anchored bookkeeping. -/
theorem followup_sent_marked_on_followup_not_parent :
    ((sendFollowup [parentDraftEx, followupDraftEx] followupDraftEx
        "2026-02-14T00:00:00Z" "2026-02-14T00:00:01Z" true).1.find?
      (fun d => d.id = "p-1")).map (fun d => d.followups.sent1) =
      some none ∧
    ((sendFollowup [parentDraftEx, followupDraftEx] followupDraftEx
        "2026-02-14T00:00:00Z" "2026-02-14T00:00:01Z" true).1.find?
      (fun d => d.id = "f-1")).map (fun d => d.followups.sent1) =
      some (some "2026-02-14T00:00:01Z") := by
  decide

/-- Drafts with a different id survive a `saveDraft` unchanged. -/
theorem mem_saveDraft_of_ne (s : Store) (d p : Draft) (hp : p ∈ s)
    (hne : p.id ≠ d.id) : p ∈ saveDraft s d := by
  unfold saveDraft
  split
  · have : (fun x => if x.id = d.id then d else x) p = p := by
      simp [hne]
    exact this ▸ List.mem_map_of_mem _ hp
  · exact List.mem_append_left _ hp

/-- C6 as amended: `Sender.sendFollowup` (with CRM sync configured)
records the sent timestamp in the `followups.sent1` field of the
follow-up draft record itself, and every other stored draft — the
parent included — is carried over unchanged; the parent is only read
for the CRM mirror. -/
theorem send_followup_records_on_followup_draft (s : Store) (draft : Draft)
    (now now2 : String) (h1 : followupNumberOf draft = 1) :
    (sendFollowup s draft now now2 true).2.id = draft.id ∧
    (sendFollowup s draft now now2 true).2.followups.sent1 = some now2 ∧
    ∀ p ∈ s, p.id ≠ draft.id → p ∈ (sendFollowup s draft now now2 true).1 := by
  unfold sendFollowup markSentAndSync
  rw [h1]
  refine ⟨rfl, rfl, ?_⟩
  intro p hp hne
  exact mem_saveDraft_of_ne _ _ _ (mem_saveDraft_of_ne _ _ _ hp hne) hne

/-- Witness for C6: the amended theorem at the concrete thread above. -/
theorem send_followup_records_on_followup_draft_witness :
    (sendFollowup [parentDraftEx, followupDraftEx] followupDraftEx
        "2026-02-14T00:00:00Z" "2026-02-14T00:00:01Z" true).2.id =
      followupDraftEx.id ∧
    (sendFollowup [parentDraftEx, followupDraftEx] followupDraftEx
        "2026-02-14T00:00:00Z" "2026-02-14T00:00:01Z" true).2.followups.sent1 =
      some "2026-02-14T00:00:01Z" ∧
    ∀ p ∈ [parentDraftEx, followupDraftEx], p.id ≠ followupDraftEx.id →
      p ∈ (sendFollowup [parentDraftEx, followupDraftEx] followupDraftEx
            "2026-02-14T00:00:00Z" "2026-02-14T00:00:01Z" true).1 :=
  send_followup_records_on_followup_draft [parentDraftEx, followupDraftEx]
    followupDraftEx "2026-02-14T00:00:00Z" "2026-02-14T00:00:01Z" (by decide)

/-! ## Claim C9: classification order of sample/demo vs channel-switch -/

/-- A message matching both the sample/demo pattern and the
channel-switch pattern, and no earlier rule. -/
def bothMatchEx : AnalysisInput :=
  { email := some "lead@example.com", subject := some "Question",
    message := some "Hi, can you send a demo via WhatsApp please?" }

/-- C9 counterexample: for a message containing both `demo` and
`whatsapp`, the classifier returns `sample_request`, not the claimed
channel-switch type — the sample/demo rule is checked before the
channel-switch rule in the source. -/
theorem classify_demo_whatsapp_gives_sample :
    sampleTest (lowerStr (jsOr bothMatchEx.message "")) = true ∧
    whatsappTest (lowerStr (jsOr bothMatchEx.message "")) = true ∧
    classifyMessageType bothMatchEx = "sample_request" ∧
    classifyMessageType bothMatchEx ≠ "whatsapp_request" := by
  decide

/-- C9 as amended: the ordered first-match-wins rules run as
non-actionable, then student, then sample/demo, then channel-switch,
then short, vague, other-language, default — so a message matching
both the sample/demo and the channel-switch patterns (and no earlier
rule) classifies as `sample_request`. -/
theorem classify_sample_checked_before_whatsapp (a : AnalysisInput)
    (h1 : nonActionableTest (lowerStr (jsOr a.message ""))
      (lowerStr (jsOr a.subject (jsOr a.emailSubject "")))
      (lowerStr (jsOr a.email (jsOr a.fromEmail ""))) = false)
    (h2 : studentTest (lowerStr (jsOr a.message "")) = false)
    (h3 : sampleTest (lowerStr (jsOr a.message "")) = true)
    (_h4 : whatsappTest (lowerStr (jsOr a.message "")) = true) :
    classifyMessageType a = "sample_request" := by
  unfold classifyMessageType
  simp only [h1, h2, h3, Bool.false_eq_true, if_false, if_true]

/-- Witness for C9: the amended theorem at the concrete demo-plus-
whatsapp message. -/
theorem classify_sample_checked_before_whatsapp_witness :
    classifyMessageType bothMatchEx = "sample_request" :=
  classify_sample_checked_before_whatsapp bothMatchEx
    (by decide) (by decide) (by decide) (by decide)

/-! ## Claim C1: dedupe before creation / idempotent ingestion -/

/-- On a successful Gemini call, `Drafter.generate` always creates and
saves a draft of the `generatedDraft` shape (either the model text or,
for non-actionable input, the static notice). -/
theorem generate_ok_shape (a : AnalysisInput) (s : Store)
    (freshId now : String) (apiKey : Option String) (http : GeminiHttp)
    (txt : String) (h : callGemini apiKey http = .ok txt) :
    ∃ c, Drafter.generate a s freshId now apiKey http =
      (saveDraft s (generatedDraft a freshId now c),
       .ok (generatedDraft a freshId now c)) := by
  unfold Drafter.generate callModelRouter
  by_cases hna : classifyMessageType a = "non_actionable"
  · refine ⟨generateFallbackDraft
      { a with messageType := (analyzeDraft a).messageType }
      (detectLanguage (some (jsOr a.message ""))), ?_⟩
    simp [analyzeDraft, hna]
  · refine ⟨txt, ?_⟩
    simp [analyzeDraft, hna, h]

/-- C1: the draft-generation entry point (`POST /api/drafts/generate`,
the sole caller of `Drafter.generate`) is idempotent per source
message. Starting from a store holding no draft that matches the
source identifiers, a first successful run appends exactly one
non-follow-up draft carrying the pair `(gmailId, threadId)`, and a
second run with the same identifiers — whatever its fetch/generation
parameters — hits the dedupe check, returns the existing draft and
leaves the store unchanged: exactly one such draft exists after both
runs. -/
theorem generate_route_idempotent
    (s : Store) (g : String) (t : Option String)
    (fetched fetched2 : FetchedEmail) (id1 id2 now1 now2 : String)
    (key key2 : Option String) (http1 http2 : GeminiHttp) (tid txt : String)
    (hg : g ≠ "")
    (hclean : ∀ d ∈ s, dedupeMatch d g t = false)
    (hfresh : ∀ d ∈ s, d.id ≠ id1)
    (ht : jsOrOpt fetched.threadId t = some tid)
    (hok : callGemini key http1 = .ok txt) :
    ∃ d1,
      generateRoute s g t fetched id1 now1 key http1 =
        (s ++ [d1], .created d1) ∧
      d1.emailData.gmailId = some g ∧ d1.emailData.threadId = some tid ∧
      d1.followups.isFollowup = false ∧
      countSourcePair s g tid = 0 ∧
      countSourcePair (s ++ [d1]) g tid = 1 ∧
      generateRoute (s ++ [d1]) g t fetched2 id2 now2 key2 http2 =
        (s ++ [d1], .deduped d1) := by
  obtain ⟨c, hgen⟩ :=
    generate_ok_shape (routeAnalysisInput g t fetched) s id1 now1 key http1
      txt hok
  refine ⟨generatedDraft (routeAnalysisInput g t fetched) id1 now1 c,
    ?_, rfl, ht, rfl, ?_, ?_, ?_⟩
  · -- first run: guard passes, dedupe finds nothing, generation saves
    unfold generateRoute
    rw [if_neg hg]
    rw [List.find?_eq_none.mpr (fun d hd => by simp [hclean d hd]), hgen]
    have hsave : saveDraft s (generatedDraft (routeAnalysisInput g t fetched)
        id1 now1 c) = s ++ [generatedDraft (routeAnalysisInput g t fetched)
        id1 now1 c] := by
      unfold saveDraft
      rw [if_neg]
      simp only [List.any_eq_true, not_exists, not_and]
      intro d hd
      simpa using hfresh d hd
    rw [hsave]
  · -- the clean store holds no draft with the pair
    unfold countSourcePair
    rw [List.length_eq_zero, List.filter_eq_nil_iff]
    intro d hd hpair
    have hded : dedupeMatch d g t = true := by
      simp only [Bool.and_eq_true, decide_eq_true_eq] at hpair
      simp [dedupeMatch, hpair.1.1, hpair.1.2, jsTruthy, hg]
    rw [hclean d hd] at hded
    exact Bool.false_ne_true hded
  · -- after the first run exactly one draft carries the pair
    have h0 : (s.filter (fun d => d.emailData.gmailId = some g &&
        d.emailData.threadId = some tid && !d.followups.isFollowup)) = [] := by
      rw [List.filter_eq_nil_iff]
      intro d hd hpair
      have hded : dedupeMatch d g t = true := by
        simp only [Bool.and_eq_true, decide_eq_true_eq] at hpair
        simp [dedupeMatch, hpair.1.1, hpair.1.2, jsTruthy, hg]
      rw [hclean d hd] at hded
      exact Bool.false_ne_true hded
    have hthread : (generatedDraft (routeAnalysisInput g t fetched) id1 now1
        c).emailData.threadId = some tid := ht
    unfold countSourcePair
    rw [List.filter_append, h0]
    simp [generatedDraft, routeAnalysisInput, hthread, ht]
  · -- second run: the dedupe finds the created draft
    unfold generateRoute
    rw [if_neg hg]
    have hfind : (s ++ [generatedDraft (routeAnalysisInput g t fetched) id1
        now1 c]).find? (fun d => dedupeMatch d g t) =
        some (generatedDraft (routeAnalysisInput g t fetched) id1 now1 c) := by
      rw [List.find?_append,
          List.find?_eq_none.mpr (fun d hd => by simp [hclean d hd])]
      simp [List.find?, dedupeMatch, jsTruthy, hg, generatedDraft,
        routeAnalysisInput]
    rw [hfind]

/-- A fetched source message for the route witness. -/
def fetchedEx : FetchedEmail :=
  { threadId := some "thr-1", subject := "Nuevo cliente potencial",
    fromRaw := "Ana <ana@example.com>", fromName := "Ana",
    fromEmail := "ana@example.com",
    body := "Hola, necesito un sitio web para mi empresa." }

/-- A successful Gemini response for the route witness. -/
def okHttpEx : GeminiHttp :=
  .response (some { parts := some ["Reply body."],
                    finishReason := some "STOP" })

/-- Witness for C1: running the generation route twice on an empty
store for the same source message creates exactly one draft and
dedupes the second run. -/
theorem generate_route_idempotent_witness :
    ∃ d1,
      generateRoute [] "msg-1" (some "thr-1") fetchedEx "id-1" "T1"
          (some "k") okHttpEx = ([] ++ [d1], .created d1) ∧
      d1.emailData.gmailId = some "msg-1" ∧
      d1.emailData.threadId = some "thr-1" ∧
      d1.followups.isFollowup = false ∧
      countSourcePair [] "msg-1" "thr-1" = 0 ∧
      countSourcePair ([] ++ [d1]) "msg-1" "thr-1" = 1 ∧
      generateRoute ([] ++ [d1]) "msg-1" (some "thr-1") fetchedEx "id-2" "T2"
          (some "k") okHttpEx = ([] ++ [d1], .deduped d1) :=
  generate_route_idempotent [] "msg-1" (some "thr-1") fetchedEx fetchedEx
    "id-1" "id-2" "T1" "T2" (some "k") (some "k") okHttpEx okHttpEx
    "thr-1" ("Reply body.".trim) (by decide)
    (by intro d hd; exact absurd hd (List.not_mem_nil d))
    (by intro d hd; exact absurd hd (List.not_mem_nil d))
    (by decide) rfl

/-! ## Claim C8: totality and tie-breaking of language detection -/

/-- A whitespace character is not a word character. -/
theorem isWordChar_eq_false_of_ws (c : Char) (h : isWsChar c = true) :
    isWordChar c = false := by
  simp only [isWsChar, Bool.or_eq_true, decide_eq_true_eq] at h
  rcases h with ((((((h | h) | h) | h) | h) | h) | h) <;> subst h <;> decide

/-- Lower-casing fixes whitespace characters. -/
theorem lowerChar_eq_of_ws (c : Char) (h : isWsChar c = true) :
    lowerChar c = c := by
  simp only [isWsChar, Bool.or_eq_true, decide_eq_true_eq] at h
  rcases h with ((((((h | h) | h) | h) | h) | h) | h) <;> subst h <;> decide

/-- Every character of a matched prefix occurs in the text. -/
theorem prefAt_mem : ∀ (pat s : List Char), prefAt pat s = true →
    ∀ c ∈ pat, c ∈ s := by
  intro pat
  induction pat with
  | nil => intro s _ c hc; exact absurd hc (List.not_mem_nil c)
  | cons p ps ih =>
    intro s h c hc
    cases s with
    | nil => exact absurd h (by simp [prefAt])
    | cons x xs =>
      simp only [prefAt, Bool.and_eq_true, beq_iff_eq] at h
      rcases List.mem_cons.mp hc with hcp | hcps
      · exact hcp ▸ h.1 ▸ List.mem_cons_self x xs
      · exact List.mem_cons_of_mem x (ih xs h.2 c hcps)

/-- Every character of a contained pattern occurs in the text. -/
theorem containsSeq_mem : ∀ (pat s : List Char), containsSeq pat s = true →
    ∀ c ∈ pat, c ∈ s := by
  intro pat s
  induction s with
  | nil =>
    intro h c hc
    cases pat with
    | nil => exact absurd hc (List.not_mem_nil c)
    | cons p ps => exact absurd h (by simp [containsSeq, existsPos, prefAt])
  | cons x xs ih =>
    intro h c hc
    simp only [containsSeq, existsPos, Bool.or_eq_true] at h
    rcases h with h | h
    · exact prefAt_mem pat (x :: xs) h c hc
    · exact List.mem_cons_of_mem x (ih h c hc)

/-- A successful alternation match means some alternative is a prefix
of the scanned text. -/
theorem tryAlts_some_prefAt (after : List Char → List Char → Option Nat) :
    ∀ (alts : List (List Char)) (s : List Char) (n : Nat),
      tryAlts after alts s = some n → ∃ alt ∈ alts, prefAt alt s = true := by
  intro alts
  induction alts with
  | nil => intro s n h; exact absurd h (by simp [tryAlts])
  | cons alt more ih =>
    intro s n h
    by_cases hp : prefAt alt s = true
    · exact ⟨alt, List.mem_cons_self alt more, hp⟩
    · rw [Bool.not_eq_true] at hp
      simp only [tryAlts, hp, Bool.false_eq_true, if_false] at h
      obtain ⟨alt', hmem, hpref⟩ := ih s n h
      exact ⟨alt', List.mem_cons_of_mem alt hmem, hpref⟩

/-- An alternation-style matcher can never fire on whitespace-only
text when each alternative contains a non-whitespace character. -/
theorem altMatcher_none_of_ws (after : List Char → List Char → Option Nat)
    (alts : List (List Char))
    (halts : alts.all (fun alt => alt.any (fun c => !(isWsChar c))) = true)
    (prev : Option Char) (s : List Char)
    (hs : ∀ c ∈ s, isWsChar c = true) :
    altMatcher after alts prev s = none := by
  unfold altMatcher
  split
  · cases htry : tryAlts after alts s with
    | none => rfl
    | some n =>
      exfalso
      obtain ⟨alt, hmem, hpref⟩ := tryAlts_some_prefAt after alts s n htry
      have halt := List.all_eq_true.mp halts alt hmem
      obtain ⟨c, hc, hcws⟩ := List.any_eq_true.mp halt
      have : isWsChar c = true := hs c (prefAt_mem alt s hpref c hc)
      simp [this] at hcws
  · rfl

/-- `\w+` cannot start on whitespace-only text. -/
theorem runLen_word_zero_of_ws (s : List Char)
    (hs : ∀ c ∈ s, isWsChar c = true) : runLen isWordChar s = 0 := by
  cases s with
  | nil => rfl
  | cons c cs =>
    have : isWordChar c = false :=
      isWordChar_eq_false_of_ws c (hs c (List.mem_cons_self c cs))
    simp [runLen, this]

/-- The suffix matcher (`/\w+sfx\b/`) can never fire on
whitespace-only text. -/
theorem suffixMatch_none_of_ws (sfx : List Char) (prev : Option Char)
    (s : List Char) (hs : ∀ c ∈ s, isWsChar c = true) :
    suffixMatch sfx prev s = none := by
  unfold suffixMatch
  rw [runLen_word_zero_of_ws s hs]
  rfl

/-- The global-match scan finds nothing when the matcher never fires
on whitespace-only text. -/
theorem scanAux_zero_of_ws (m : Option Char → List Char → Option Nat)
    (hm : ∀ prev s, (∀ c ∈ s, isWsChar c = true) → m prev s = none) :
    ∀ (fuel : Nat) (prev : Option Char) (s : List Char),
      (∀ c ∈ s, isWsChar c = true) → scanAux m fuel prev s = 0 := by
  intro fuel
  induction fuel with
  | zero => intro prev s _; rfl
  | succ n ih =>
    intro prev s hs
    cases s with
    | nil => rfl
    | cons c cs =>
      simp only [scanAux, hm prev (c :: cs) hs]
      exact ih (some c) cs (fun x hx => hs x (List.mem_cons_of_mem c hx))

/-- No pattern matches are counted on whitespace-only text. -/
theorem countMatches_zero_of_ws (m : Option Char → List Char → Option Nat)
    (hm : ∀ prev s, (∀ c ∈ s, isWsChar c = true) → m prev s = none)
    (s : List Char) (hs : ∀ c ∈ s, isWsChar c = true) :
    countMatches m s = 0 :=
  scanAux_zero_of_ws m hm s.length none s hs

/-- No marker word is contained in whitespace-only text when every
listed word has a non-whitespace character. -/
theorem wordHits_zero_of_ws (ws : List String)
    (hws : ws.all (fun w => w.data.any (fun c => !(isWsChar c))) = true)
    (s : List Char) (hs : ∀ c ∈ s, isWsChar c = true) :
    wordHits ws s = 0 := by
  unfold wordHits
  rw [List.length_eq_zero, List.filter_eq_nil_iff]
  intro w hw hcon
  have hcon' : containsSeq w.data s = true := by simpa using hcon
  have hword := List.all_eq_true.mp hws w hw
  obtain ⟨c, hc, hcws⟩ := List.any_eq_true.mp hword
  have : isWsChar c = true := hs c (containsSeq_mem w.data s hcon' c hc)
  simp [this] at hcws

/-- The Spanish score of whitespace-only text is zero. -/
theorem esScore_zero_of_ws (s : List Char)
    (hs : ∀ c ∈ s, isWsChar c = true) : esScore s = 0 := by
  have h0 := wordHits_zero_of_ws esWords (by decide) s hs
  have h1 : countMatches (altSpaceWord
      (["el", "la", "los", "las", "un", "una", "unos", "unas"].map
        String.data)) s = 0 :=
    countMatches_zero_of_ws _
      (altMatcher_none_of_ws afterSpaceWord _ (by decide)) s hs
  have h2 : countMatches (altSpace
      (["de", "del", "en", "es", "son", "por", "para", "con", "sin",
        "sobre"].map String.data)) s = 0 :=
    countMatches_zero_of_ws _
      (altMatcher_none_of_ws afterSpace _ (by decide)) s hs
  have h3 := countMatches_zero_of_ws _
    (suffixMatch_none_of_ws "ci\u00E3\u00B3n".data) s hs
  have h4 := countMatches_zero_of_ws _
    (suffixMatch_none_of_ws "dad".data) s hs
  have h5 : countMatches (altBoundary
      (["qu\u00E3\u00A9", "c\u00E3\u00B3mo", "d\u00E3\u00B3nde",
        "cu\u00E3\u00A1l", "qui\u00E3\u00A9n"].map String.data)) s = 0 :=
    countMatches_zero_of_ws _
      (altMatcher_none_of_ws afterBoundary _ (by decide)) s hs
  simp only [List.map_cons, List.map_nil] at h1 h2 h5
  simp only [esScore, patternHits, esPatterns, List.map_cons, List.map_nil,
    List.foldr_cons, List.foldr_nil, h0, h1, h2, h3, h4, h5]

/-- Whitespace-only input is mapped to whitespace-only lower-cased
text. -/
theorem lowerStr_ws (str : String)
    (h : ∀ c ∈ str.data, isWsChar c = true) :
    ∀ c ∈ lowerStr str, isWsChar c = true := by
  intro c hc
  obtain ⟨c', hc', rfl⟩ := List.mem_map.mp hc
  rw [lowerChar_eq_of_ws c' (h c' hc')]
  exact h c' hc'

/-- C8: `detectLanguage` always returns `"en"` or `"es"`; `null`,
empty and whitespace-only input yield `"en"`; a tie of the weighted
lexical scores (10 per word hit and 3 per pattern match, i.e. the
source's 1 and 0.3 scaled by ten) yields `"en"`; and `"es"` is
returned exactly when the Spanish score is strictly greater than the
English score (on non-empty input). -/
theorem detectLanguage_total_and_tiebreak :
    (∀ t : Option String, detectLanguage t = "en" ∨ detectLanguage t = "es") ∧
    detectLanguage none = "en" ∧
    detectLanguage (some "") = "en" ∧
    (∀ str : String, (∀ c ∈ str.data, isWsChar c = true) →
      detectLanguage (some str) = "en") ∧
    (∀ str : String, esScore (lowerStr str) = enScore (lowerStr str) →
      detectLanguage (some str) = "en") ∧
    (∀ str : String, detectLanguage (some str) = "es" ↔
      (str ≠ "" ∧ enScore (lowerStr str) < esScore (lowerStr str))) := by
  refine ⟨?_, rfl, rfl, ?_, ?_, ?_⟩
  · intro t
    cases t with
    | none => exact Or.inl rfl
    | some str =>
      by_cases h0 : str = ""
      · exact Or.inl (by simp [detectLanguage, h0])
      · by_cases h1 : enScore (lowerStr str) < esScore (lowerStr str)
        · exact Or.inr (by simp [detectLanguage, h0, h1])
        · exact Or.inl (by simp [detectLanguage, h0, h1])
  · intro str hws
    by_cases h0 : str = ""
    · simp [detectLanguage, h0]
    · have hz := esScore_zero_of_ws (lowerStr str) (lowerStr_ws str hws)
      simp [detectLanguage, h0, hz]
  · intro str htie
    by_cases h0 : str = ""
    · simp [detectLanguage, h0]
    · simp [detectLanguage, h0, htie]
  · intro str
    constructor
    · intro h
      by_cases h0 : str = ""
      · rw [show detectLanguage (some str) = "en" by
            simp [detectLanguage, h0]] at h
        exact absurd h (by decide)
      · by_cases h1 : enScore (lowerStr str) < esScore (lowerStr str)
        · exact ⟨h0, h1⟩
        · rw [show detectLanguage (some str) = "en" by
              simp [detectLanguage, h0, h1]] at h
          exact absurd h (by decide)
    · intro ⟨h0, h1⟩
      simp [detectLanguage, h0, h1]

/-- Witness for C8: whitespace-only input, a score tie, and a strictly
greater Spanish score, each at a concrete string. -/
theorem detectLanguage_total_and_tiebreak_witness :
    detectLanguage (some "   ") = "en" ∧
    detectLanguage (some "zzz") = "en" ∧
    detectLanguage (some "hola") = "es" :=
  ⟨detectLanguage_total_and_tiebreak.2.2.2.1 "   " (by decide),
   detectLanguage_total_and_tiebreak.2.2.2.2.1 "zzz" (by decide),
   (detectLanguage_total_and_tiebreak.2.2.2.2.2 "hola").mpr
     ⟨by decide, by decide⟩⟩

end EmailBot
